/-
Verification of the OTP-based authentication flow of the hdnotebackend
repository (routes/auth.ts, with the federated google-firebase variant).

The handlers are shallowly embedded as pure functions over an explicit
store (a list of Identity records, standing for the User collection) and
an explicit current time in milliseconds.  Nondeterministic collaborators
are made into parameters: the generated OTP code is passed in, the JWT
token is represented by the user id it encodes, and notification dispatch
is recorded in an output list.  `findOne` is first-match over the list,
and a mongoose in-place `save` is replacement of the record by id.

JavaScript truthiness of the optional string fields (`!user.otp`,
`!user.firebaseUid`, `!firebaseUid`, `avatar && !user.avatar`) is modelled
by `truthyStr`: absent or empty strings are falsy.  A `Date` valued field
is truthy whenever present, so `!user.otpExpires || user.otpExpires <
new Date()` becomes `dateExpired`.
-/
import Mathlib

namespace HdNote

/-- One persisted user record.  The mongoose User model file is not part of
the provided sources; its field set and defaults are modelled from the spec
(section 3 DATA MODEL): `isEmailVerified` defaults to false, optional fields
default to absent, `_id` is an opaque unique identifier (here a `Nat`). -/
structure Identity where
  id : Nat
  name : String
  email : String
  dateOfBirth : Option Nat
  avatar : Option String
  authProvider : String
  firebaseUid : Option String
  isEmailVerified : Bool
  otp : Option String
  otpExpires : Option Nat
  deriving Repr, DecidableEq

/-- The public user projection returned on successful authentication:
exactly the six fields serialized in the `user:` object of the responses. -/
structure PublicProfile where
  id : Nat
  name : String
  email : String
  dateOfBirth : Option Nat
  avatar : Option String
  authProvider : String
  deriving Repr, DecidableEq

/-- `user: { id, name, email, dateOfBirth, avatar, authProvider }`. -/
def publicProfile (u : Identity) : PublicProfile :=
  { id := u.id, name := u.name, email := u.email, dateOfBirth := u.dateOfBirth,
    avatar := u.avatar, authProvider := u.authProvider }

/-- An email handed to the Notification Dispatcher
(`sendOTPEmail(email, otp, name)` / `sendWelcomeEmail(email, name)`). -/
inductive Notif where
  | otpMail (email code name : String)
  | welcomeMail (email name : String)
  deriving Repr, DecidableEq

/-- The HTTP-level outcome of a handler.  `okToken` carries the JWT as the
user id it encodes (`generateToken((user._id).toString())`). -/
inductive AuthResult where
  | badRequest (msg : String)
  | okEmail (msg email : String)
  | okMsg (msg : String)
  | okToken (msg : String) (token : Nat) (user : PublicProfile)
  deriving Repr, DecidableEq

/-- JavaScript truthiness of an optional string: absent and `""` are falsy. -/
def truthyStr : Option String → Bool
  | none => false
  | some s => !(s == "")

/-- `!user.otpExpires || user.otpExpires < new Date()`: absent expiry counts
as expired, a present one is expired exactly when it is before `now`. -/
def dateExpired : Option Nat → Nat → Bool
  | none, _ => true
  | some t, now => decide (t < now)

/-- `User.findOne({ email })`: first record with this email. -/
def findByEmail (s : List Identity) (email : String) : Option Identity :=
  s.find? (fun u => u.email == email)

/-- `await user.save()` on a record loaded from the store: in-place update,
i.e. every stored record with this id is replaced. -/
def saveUser (s : List Identity) (u : Identity) : List Identity :=
  s.map (fun v => if v.id == u.id then u else v)

/-- A fresh `_id` for `User.create`. -/
def freshId (s : List Identity) : Nat :=
  s.foldr (fun u m => max (u.id + 1) m) 0

/-- `new Date(Date.now() + 10 * 60 * 1000)` — the 10 minute OTP window. -/
def otpWindowMs : Nat := 10 * 60 * 1000

/-- POST /signup.  `otp` is the value returned by `generateOTP()`. -/
def signup (s : List Identity) (now : Nat) (otp name email : String)
    (dateOfBirth : Nat) : AuthResult × List Identity × List Notif :=
  let otpExpires := now + otpWindowMs
  match findByEmail s email with
  | some existingUser =>
    if existingUser.isEmailVerified then
      (.badRequest "User already exists with this email", s, [])
    else
      let u := { existingUser with
                 name := name, dateOfBirth := some dateOfBirth,
                 otp := some otp, otpExpires := some otpExpires }
      (.okEmail "OTP sent successfully to your email" email,
        saveUser s u, [.otpMail email otp name])
  | none =>
    let u : Identity :=
      { id := freshId s, name := name, email := email,
        dateOfBirth := some dateOfBirth, avatar := none,
        authProvider := "email", firebaseUid := none,
        isEmailVerified := false, otp := some otp,
        otpExpires := some otpExpires }
    (.okEmail "OTP sent successfully to your email" email,
      s ++ [u], [.otpMail email otp name])

/-- POST /verify-otp. -/
def verifyOtp (s : List Identity) (now : Nat) (email otp : String) :
    AuthResult × List Identity × List Notif :=
  match findByEmail s email with
  | none => (.badRequest "User not found", s, [])
  | some user =>
    if !truthyStr user.otp || user.otp != some otp then
      (.badRequest "Invalid OTP", s, [])
    else if dateExpired user.otpExpires now then
      (.badRequest "OTP has expired", s, [])
    else
      let u := { user with
                 isEmailVerified := true,
                 otp := none, otpExpires := none }
      (.okToken "Email verified successfully" u.id (publicProfile u),
        saveUser s u, [.welcomeMail email user.name])

/-- POST /signin.  `otp` is the value returned by `generateOTP()`. -/
def signin (s : List Identity) (now : Nat) (otp email : String) :
    AuthResult × List Identity × List Notif :=
  match findByEmail s email with
  | none => (.badRequest "User not found with this email", s, [])
  | some user =>
    if !user.isEmailVerified then
      (.badRequest "Please complete your signup first", s, [])
    else if user.authProvider == "firebase" then
      (.badRequest "Please use Google sign-in for this account", s, [])
    else
      let u := { user with
                 otp := some otp,
                 otpExpires := some (now + otpWindowMs) }
      (.okEmail "OTP sent successfully to your email" email,
        saveUser s u, [.otpMail email otp user.name])

/-- POST /signin-verify. -/
def signinVerify (s : List Identity) (now : Nat) (email otp : String) :
    AuthResult × List Identity × List Notif :=
  match findByEmail s email with
  | none => (.badRequest "User not found", s, [])
  | some user =>
    if !truthyStr user.otp || user.otp != some otp then
      (.badRequest "Invalid OTP", s, [])
    else if dateExpired user.otpExpires now then
      (.badRequest "OTP has expired", s, [])
    else
      let u := { user with otp := none, otpExpires := none }
      (.okToken "Signed in successfully" u.id (publicProfile u),
        saveUser s u, [])

/-- POST /resend-otp.  `otp` is the value returned by `generateOTP()`. -/
def resendOtp (s : List Identity) (now : Nat) (otp email : String) :
    AuthResult × List Identity × List Notif :=
  match findByEmail s email with
  | none => (.badRequest "User not found", s, [])
  | some user =>
    let u := { user with
               otp := some otp,
               otpExpires := some (now + otpWindowMs) }
    (.okMsg "OTP resent successfully",
      saveUser s u, [.otpMail email otp user.name])

/-- POST /google-firebase.  The four body fields may each be absent. -/
def googleFirebase (s : List Identity)
    (firebaseUid name email avatar : Option String) :
    AuthResult × List Identity × List Notif :=
  if !truthyStr firebaseUid || !truthyStr email then
    (.badRequest "Firebase UID and email are required", s, [])
  else
    match s.find? (fun u =>
        u.firebaseUid == some (firebaseUid.getD "") ||
        u.email == email.getD "") with
    | some user =>
      if !truthyStr user.firebaseUid then
        let u := { user with
                   firebaseUid := firebaseUid,
                   authProvider := "firebase",
                   avatar := if truthyStr avatar && !truthyStr user.avatar
                             then avatar else user.avatar }
        (.okToken "Google authentication successful" u.id (publicProfile u),
          saveUser s u, [])
      else
        (.okToken "Google authentication successful" user.id
          (publicProfile user), s, [])
    | none =>
      let u : Identity :=
        { id := freshId s,
          name := if truthyStr name then name.getD "" else "Google User",
          email := email.getD "", dateOfBirth := none, avatar := avatar,
          authProvider := "firebase", firebaseUid := firebaseUid,
          isEmailVerified := true, otp := none, otpExpires := none }
      (.okToken "Google authentication successful" u.id (publicProfile u),
        s ++ [u], [.welcomeMail (email.getD "") u.name])

/-- A response that is not a 400 rejection. -/
def isSuccess : AuthResult → Bool
  | .badRequest _ => false
  | _ => true

/-- A response carrying a session token. -/
def isToken : AuthResult → Bool
  | .okToken _ _ _ => true
  | _ => false

/-- The identity id encoded in the session token, when one was issued. -/
def tokenId : AuthResult → Option Nat
  | .okToken _ t _ => some t
  | _ => none

/-- Sample record: an unverified email identity with an outstanding
challenge, as left behind by signup. -/
def sampleWithOtp : Identity :=
  { id := 1, name := "A", email := "a@x.com", dateOfBirth := some 0,
    avatar := none, authProvider := "email", firebaseUid := none,
    isEmailVerified := false, otp := some "123456", otpExpires := some 1000 }

/-- Sample record: a verified email identity with no outstanding challenge. -/
def sampleVerified : Identity :=
  { id := 2, name := "B", email := "b@x.com", dateOfBirth := none,
    avatar := none, authProvider := "email", firebaseUid := none,
    isEmailVerified := true, otp := none, otpExpires := none }

/-- Sample record: a verified email identity with an outstanding challenge,
as left behind by signin. -/
def sampleVerifiedWithOtp : Identity :=
  { sampleVerified with otp := some "654321", otpExpires := some 1000 }

/-- Sample record: a federated (google-firebase) identity. -/
def sampleFederated : Identity :=
  { id := 3, name := "C", email := "c@x.com", dateOfBirth := none,
    avatar := none, authProvider := "firebase", firebaseUid := some "U9",
    isEmailVerified := true, otp := none, otpExpires := none }

/-- The record `User.create` builds in google-firebase when neither the
uid nor the email is known. -/
def googleCreated (s : List Identity)
    (firebaseUid name email avatar : Option String) : Identity :=
  { id := freshId s,
    name := if truthyStr name then name.getD "" else "Google User",
    email := email.getD "", dateOfBirth := none, avatar := avatar,
    authProvider := "firebase", firebaseUid := firebaseUid,
    isEmailVerified := true, otp := none, otpExpires := none }

/-- The mutation google-firebase applies when attaching a provider id to a
found record that has none. -/
def googleAttached (u : Identity) (firebaseUid avatar : Option String) :
    Identity :=
  { u with
    firebaseUid := firebaseUid, authProvider := "firebase",
    avatar := if truthyStr avatar && !truthyStr u.avatar then avatar
              else u.avatar }

/-- The pairing invariant of section 3 of the spec: `otp` and `otpExpires`
are both present or both absent. -/
def otpPaired (u : Identity) : Bool :=
  u.otp.isSome == u.otpExpires.isSome

/-- Every stored record satisfies the pairing invariant. -/
@[reducible] def storePaired (s : List Identity) : Prop :=
  ∀ u ∈ s, otpPaired u = true

end HdNote

namespace HdNote

theorem length_saveUser (s : List Identity) (u : Identity) :
    (saveUser s u).length = s.length := by
  simp [saveUser]

theorem mem_saveUser {v u : Identity} {s : List Identity}
    (h : v ∈ saveUser s u) : v = u ∨ v ∈ s := by
  rcases List.mem_map.1 h with ⟨w, hw, hv⟩
  by_cases hid : (w.id == u.id) = true
  · left; simp only [hid, if_true] at hv; exact hv.symm
  · right; simp only [hid, if_false] at hv; exact hv ▸ hw

theorem find?_saveUser {p : Identity → Bool} {s : List Identity} {u : Identity}
    (u' : Identity) (h : s.find? p = some u) (hid : u'.id = u.id)
    (hp : p u' = true) : (saveUser s u').find? p = some u' := by
  induction s with
  | nil => simp [List.find?] at h
  | cons v t ih =>
    by_cases hv : p v = true
    · rw [List.find?_cons_of_pos _ hv] at h
      injection h with h
      subst h
      have hvid : (v.id == u'.id) = true := by simp [hid]
      simp only [saveUser, List.map_cons, hvid, if_true]
      exact List.find?_cons_of_pos _ hp
    · rw [List.find?_cons_of_neg _ (by simpa using hv)] at h
      have ih' := ih h
      by_cases hvid : (v.id == u'.id) = true
      · simp only [saveUser, List.map_cons, hvid, if_true]
        exact List.find?_cons_of_pos _ hp
      · simp only [saveUser, List.map_cons, hvid, if_false]
        rw [List.find?_cons_of_neg _ (by simpa using hv)]
        exact ih'

theorem otpGuard_false_iff (o : Option String) (c : String) :
    ((!truthyStr o || o != some c) = false) ↔ (o = some c ∧ c ≠ "") := by
  cases o with
  | none => simp [truthyStr]
  | some s =>
    simp only [truthyStr, Bool.not_not, Bool.or_eq_false_iff, bne_eq_false_iff_eq,
      Option.some.injEq, beq_eq_false_iff_ne, ne_eq]
    constructor
    · rintro ⟨h1, h2⟩; subst h2; exact ⟨rfl, by simpa using h1⟩
    · rintro ⟨h1, h2⟩; subst h1; exact ⟨by simpa using h2, rfl⟩

theorem dateExpired_false_iff (e : Option Nat) (now : Nat) :
    (dateExpired e now = false) ↔ ∃ t, e = some t ∧ now ≤ t := by
  cases e with
  | none => simp [dateExpired]
  | some t => simp [dateExpired, Nat.not_lt]

end HdNote

namespace HdNote

theorem verifyOtp_not_found {s : List Identity} {email : String} (now : Nat)
    (code : String) (h : findByEmail s email = none) :
    verifyOtp s now email code = (.badRequest "User not found", s, []) := by
  simp [verifyOtp, h]

theorem verifyOtp_invalid {s : List Identity} {email : String} {u : Identity}
    (now : Nat) (code : String) (h : findByEmail s email = some u)
    (hc : (!truthyStr u.otp || u.otp != some code) = true) :
    verifyOtp s now email code = (.badRequest "Invalid OTP", s, []) := by
  simp [verifyOtp, h, hc]

theorem verifyOtp_expired {s : List Identity} {email : String} {u : Identity}
    (now : Nat) (code : String) (h : findByEmail s email = some u)
    (hc : (!truthyStr u.otp || u.otp != some code) = false)
    (he : dateExpired u.otpExpires now = true) :
    verifyOtp s now email code = (.badRequest "OTP has expired", s, []) := by
  simp [verifyOtp, h, hc, he]

theorem verifyOtp_ok {s : List Identity} {email : String} {u : Identity}
    (now : Nat) (code : String) (h : findByEmail s email = some u)
    (hc : (!truthyStr u.otp || u.otp != some code) = false)
    (he : dateExpired u.otpExpires now = false) :
    verifyOtp s now email code =
      (.okToken "Email verified successfully" u.id
        (publicProfile { u with
                         isEmailVerified := true,
                         otp := none, otpExpires := none }),
       saveUser s { u with
                    isEmailVerified := true,
                    otp := none, otpExpires := none },
       [.welcomeMail email u.name]) := by
  simp [verifyOtp, h, hc, he]

theorem signinVerify_not_found {s : List Identity} {email : String} (now : Nat)
    (code : String) (h : findByEmail s email = none) :
    signinVerify s now email code = (.badRequest "User not found", s, []) := by
  simp [signinVerify, h]

theorem signinVerify_invalid {s : List Identity} {email : String} {u : Identity}
    (now : Nat) (code : String) (h : findByEmail s email = some u)
    (hc : (!truthyStr u.otp || u.otp != some code) = true) :
    signinVerify s now email code = (.badRequest "Invalid OTP", s, []) := by
  simp [signinVerify, h, hc]

theorem signinVerify_expired {s : List Identity} {email : String} {u : Identity}
    (now : Nat) (code : String) (h : findByEmail s email = some u)
    (hc : (!truthyStr u.otp || u.otp != some code) = false)
    (he : dateExpired u.otpExpires now = true) :
    signinVerify s now email code = (.badRequest "OTP has expired", s, []) := by
  simp [signinVerify, h, hc, he]

theorem signinVerify_ok {s : List Identity} {email : String} {u : Identity}
    (now : Nat) (code : String) (h : findByEmail s email = some u)
    (hc : (!truthyStr u.otp || u.otp != some code) = false)
    (he : dateExpired u.otpExpires now = false) :
    signinVerify s now email code =
      (.okToken "Signed in successfully" u.id
        (publicProfile { u with otp := none, otpExpires := none }),
       saveUser s { u with otp := none, otpExpires := none },
       []) := by
  simp [signinVerify, h, hc, he]

end HdNote

namespace HdNote

theorem signin_not_found {s : List Identity} {email : String} (now : Nat)
    (otp : String) (h : findByEmail s email = none) :
    signin s now otp email = (.badRequest "User not found with this email", s, []) := by
  simp [signin, h]

theorem signin_unverified {s : List Identity} {email : String} {u : Identity}
    (now : Nat) (otp : String) (h : findByEmail s email = some u)
    (hv : u.isEmailVerified = false) :
    signin s now otp email = (.badRequest "Please complete your signup first", s, []) := by
  simp [signin, h, hv]

theorem signin_firebase {s : List Identity} {email : String} {u : Identity}
    (now : Nat) (otp : String) (h : findByEmail s email = some u)
    (hv : u.isEmailVerified = true) (hp : u.authProvider = "firebase") :
    signin s now otp email =
      (.badRequest "Please use Google sign-in for this account", s, []) := by
  simp [signin, h, hv, hp]

theorem signin_ok {s : List Identity} {email : String} {u : Identity}
    (now : Nat) (otp : String) (h : findByEmail s email = some u)
    (hv : u.isEmailVerified = true) (hp : u.authProvider ≠ "firebase") :
    signin s now otp email =
      (.okEmail "OTP sent successfully to your email" email,
       saveUser s { u with
                    otp := some otp,
                    otpExpires := some (now + otpWindowMs) },
       [.otpMail email otp u.name]) := by
  simp [signin, h, hv, hp]

theorem resendOtp_not_found {s : List Identity} {email : String} (now : Nat)
    (otp : String) (h : findByEmail s email = none) :
    resendOtp s now otp email = (.badRequest "User not found", s, []) := by
  simp [resendOtp, h]

theorem resendOtp_ok {s : List Identity} {email : String} {u : Identity}
    (now : Nat) (otp : String) (h : findByEmail s email = some u) :
    resendOtp s now otp email =
      (.okMsg "OTP resent successfully",
       saveUser s { u with
                    otp := some otp,
                    otpExpires := some (now + otpWindowMs) },
       [.otpMail email otp u.name]) := by
  simp [resendOtp, h]

theorem signup_exists {s : List Identity} {email : String} {u : Identity}
    (now : Nat) (otp name : String) (dob : Nat)
    (h : findByEmail s email = some u) (hv : u.isEmailVerified = true) :
    signup s now otp name email dob =
      (.badRequest "User already exists with this email", s, []) := by
  simp [signup, h, hv]

theorem signup_update {s : List Identity} {email : String} {u : Identity}
    (now : Nat) (otp name : String) (dob : Nat)
    (h : findByEmail s email = some u) (hv : u.isEmailVerified = false) :
    signup s now otp name email dob =
      (.okEmail "OTP sent successfully to your email" email,
       saveUser s { u with
                    name := name, dateOfBirth := some dob,
                    otp := some otp, otpExpires := some (now + otpWindowMs) },
       [.otpMail email otp name]) := by
  simp [signup, h, hv]

theorem signup_create {s : List Identity} {email : String}
    (now : Nat) (otp name : String) (dob : Nat)
    (h : findByEmail s email = none) :
    signup s now otp name email dob =
      (.okEmail "OTP sent successfully to your email" email,
       s ++ [{ id := freshId s, name := name, email := email,
               dateOfBirth := some dob, avatar := none,
               authProvider := "email", firebaseUid := none,
               isEmailVerified := false, otp := some otp,
               otpExpires := some (now + otpWindowMs) }],
       [.otpMail email otp name]) := by
  simp [signup, h]

theorem googleFirebase_attach {s : List Identity}
    {uid name email avatar : Option String} {u : Identity}
    (hg : (!truthyStr uid || !truthyStr email) = false)
    (h : s.find? (fun v => v.firebaseUid == some (uid.getD "") ||
           v.email == email.getD "") = some u)
    (hn : truthyStr u.firebaseUid = false) :
    googleFirebase s uid name email avatar =
      (.okToken "Google authentication successful" u.id
        (publicProfile (googleAttached u uid avatar)),
       saveUser s (googleAttached u uid avatar),
       []) := by
  simp [googleFirebase, googleAttached, hg, h, hn]

theorem googleFirebase_existing {s : List Identity}
    {uid name email avatar : Option String} {u : Identity}
    (hg : (!truthyStr uid || !truthyStr email) = false)
    (h : s.find? (fun v => v.firebaseUid == some (uid.getD "") ||
           v.email == email.getD "") = some u)
    (hn : truthyStr u.firebaseUid = true) :
    googleFirebase s uid name email avatar =
      (.okToken "Google authentication successful" u.id (publicProfile u),
       s, []) := by
  simp [googleFirebase, hg, h, hn]

theorem googleFirebase_create {s : List Identity}
    {uid name email avatar : Option String}
    (hg : (!truthyStr uid || !truthyStr email) = false)
    (h : s.find? (fun v => v.firebaseUid == some (uid.getD "") ||
           v.email == email.getD "") = none) :
    googleFirebase s uid name email avatar =
      (.okToken "Google authentication successful" (freshId s)
        (publicProfile (googleCreated s uid name email avatar)),
       s ++ [googleCreated s uid name email avatar],
       [.welcomeMail (email.getD "")
         (googleCreated s uid name email avatar).name]) := by
  simp [googleFirebase, googleCreated, hg, h]

end HdNote

namespace HdNote

theorem verifyOtp_token_iff (s : List Identity) (now : Nat)
    (email code : String) :
    isToken (verifyOtp s now email code).1 = true ↔
      ∃ u, findByEmail s email = some u ∧ u.otp = some code ∧ code ≠ "" ∧
        ∃ t, u.otpExpires = some t ∧ now ≤ t := by
  rcases hfind : findByEmail s email with _ | u
  · rw [verifyOtp_not_found now code hfind]
    simp [isToken, hfind]
  · cases hc : (!truthyStr u.otp || u.otp != some code) with
    | true =>
      rw [verifyOtp_invalid now code hfind hc]
      simp only [isToken, Bool.false_eq_true, false_iff]
      rintro ⟨u', hu', hotp, hne, -⟩
      injection hu' with hu'; subst hu'
      have hguard := (otpGuard_false_iff u.otp code).2 ⟨hotp, hne⟩
      simp [hguard] at hc
    | false =>
      cases he : dateExpired u.otpExpires now with
      | true =>
        rw [verifyOtp_expired now code hfind hc he]
        simp only [isToken, Bool.false_eq_true, false_iff]
        rintro ⟨u', hu', -, -, t, ht, hle⟩
        injection hu' with hu'; subst hu'
        have hlive := (dateExpired_false_iff u.otpExpires now).2 ⟨t, ht, hle⟩
        simp [hlive] at he
      | false =>
        rw [verifyOtp_ok now code hfind hc he]
        simp only [isToken, true_iff]
        rcases (otpGuard_false_iff u.otp code).1 hc with ⟨hotp, hne⟩
        rcases (dateExpired_false_iff u.otpExpires now).1 he with ⟨t, ht, hle⟩
        exact ⟨u, rfl, hotp, hne, t, ht, hle⟩

theorem signinVerify_token_iff (s : List Identity) (now : Nat)
    (email code : String) :
    isToken (signinVerify s now email code).1 = true ↔
      ∃ u, findByEmail s email = some u ∧ u.otp = some code ∧ code ≠ "" ∧
        ∃ t, u.otpExpires = some t ∧ now ≤ t := by
  rcases hfind : findByEmail s email with _ | u
  · rw [signinVerify_not_found now code hfind]
    simp [isToken, hfind]
  · cases hc : (!truthyStr u.otp || u.otp != some code) with
    | true =>
      rw [signinVerify_invalid now code hfind hc]
      simp only [isToken, Bool.false_eq_true, false_iff]
      rintro ⟨u', hu', hotp, hne, -⟩
      injection hu' with hu'; subst hu'
      have hguard := (otpGuard_false_iff u.otp code).2 ⟨hotp, hne⟩
      simp [hguard] at hc
    | false =>
      cases he : dateExpired u.otpExpires now with
      | true =>
        rw [signinVerify_expired now code hfind hc he]
        simp only [isToken, Bool.false_eq_true, false_iff]
        rintro ⟨u', hu', -, -, t, ht, hle⟩
        injection hu' with hu'; subst hu'
        have hlive := (dateExpired_false_iff u.otpExpires now).2 ⟨t, ht, hle⟩
        simp [hlive] at he
      | false =>
        rw [signinVerify_ok now code hfind hc he]
        simp only [isToken, true_iff]
        rcases (otpGuard_false_iff u.otp code).1 hc with ⟨hotp, hne⟩
        rcases (dateExpired_false_iff u.otpExpires now).1 he with ⟨t, ht, hle⟩
        exact ⟨u, rfl, hotp, hne, t, ht, hle⟩

end HdNote

namespace HdNote

/-- C1, counterexample to the claim as stated: the stored challenge of
`sampleWithOtp` expires at t = 1000, and verify-otp called exactly at
now = 1000 — a time not strictly before otpExpires — still succeeds,
because the handler only rejects when `otpExpires < now`. -/
theorem c1_counterexample :
    sampleWithOtp.otpExpires = some 1000 ∧ ¬ ((1000 : Nat) < 1000) ∧
    isToken (verifyOtp [sampleWithOtp] 1000 "a@x.com" "123456").1 = true := by
  decide

/-- C1 (amended): verify-otp(email, otp) succeeds iff an identity with that
email exists, its stored otp is present and equals the supplied non-empty
code, and its otpExpires is present with now ≤ otpExpires (the code is
valid up to and including the expiry instant, not only strictly before it);
on success the stored otp and otpExpires become absent and isEmailVerified
becomes true with every other field unchanged; on any failure the store is
unchanged. -/
theorem c1_verify_otp_semantics (s : List Identity) (now : Nat)
    (email code : String) :
    (isToken (verifyOtp s now email code).1 = true ↔
      ∃ u, findByEmail s email = some u ∧ u.otp = some code ∧ code ≠ "" ∧
        ∃ t, u.otpExpires = some t ∧ now ≤ t) ∧
    (∀ u, findByEmail s email = some u →
      isToken (verifyOtp s now email code).1 = true →
      (verifyOtp s now email code).2.1 =
        saveUser s { u with
                     isEmailVerified := true,
                     otp := none, otpExpires := none }) ∧
    (isToken (verifyOtp s now email code).1 = false →
      (verifyOtp s now email code).2.1 = s) := by
  refine ⟨verifyOtp_token_iff s now email code, ?_, ?_⟩
  · intro u hfind htok
    cases hc : (!truthyStr u.otp || u.otp != some code) with
    | true =>
      rw [verifyOtp_invalid now code hfind hc] at htok
      simp [isToken] at htok
    | false =>
      cases he : dateExpired u.otpExpires now with
      | true =>
        rw [verifyOtp_expired now code hfind hc he] at htok
        simp [isToken] at htok
      | false =>
        rw [verifyOtp_ok now code hfind hc he]
  · intro hfail
    rcases hfind : findByEmail s email with _ | u
    · rw [verifyOtp_not_found now code hfind]
    · cases hc : (!truthyStr u.otp || u.otp != some code) with
      | true => rw [verifyOtp_invalid now code hfind hc]
      | false =>
        cases he : dateExpired u.otpExpires now with
        | true => rw [verifyOtp_expired now code hfind hc he]
        | false =>
          rw [verifyOtp_ok now code hfind hc he] at hfail
          simp [isToken] at hfail

/-- C1 witness: concrete run of the amended theorem's success branch. -/
theorem c1_witness :
    (verifyOtp [sampleWithOtp] 500 "a@x.com" "123456").2.1 =
      saveUser [sampleWithOtp]
        { sampleWithOtp with
          isEmailVerified := true, otp := none, otpExpires := none } :=
  (c1_verify_otp_semantics [sampleWithOtp] 500 "a@x.com" "123456").2.1
    sampleWithOtp (by decide) (by decide)

theorem mismatch_guard_true {o : Option String} {c : String}
    (h : o ≠ some c) : (!truthyStr o || o != some c) = true := by
  have : (o != some c) = true := bne_iff_ne.2 h
  simp [this]

theorem verifyOtp_fail_unchanged (s : List Identity) (now : Nat)
    (email code : String)
    (hfail : isToken (verifyOtp s now email code).1 = false) :
    (verifyOtp s now email code).2.1 = s := by
  rcases hfind : findByEmail s email with _ | u
  · rw [verifyOtp_not_found now code hfind]
  · cases hc : (!truthyStr u.otp || u.otp != some code) with
    | true => rw [verifyOtp_invalid now code hfind hc]
    | false =>
      cases he : dateExpired u.otpExpires now with
      | true => rw [verifyOtp_expired now code hfind hc he]
      | false =>
        rw [verifyOtp_ok now code hfind hc he] at hfail
        simp [isToken] at hfail

theorem signinVerify_fail_unchanged (s : List Identity) (now : Nat)
    (email code : String)
    (hfail : isToken (signinVerify s now email code).1 = false) :
    (signinVerify s now email code).2.1 = s := by
  rcases hfind : findByEmail s email with _ | u
  · rw [signinVerify_not_found now code hfind]
  · cases hc : (!truthyStr u.otp || u.otp != some code) with
    | true => rw [signinVerify_invalid now code hfind hc]
    | false =>
      cases he : dateExpired u.otpExpires now with
      | true => rw [signinVerify_expired now code hfind hc he]
      | false =>
        rw [signinVerify_ok now code hfind hc he] at hfail
        simp [isToken] at hfail

/-- C4: in verify-otp and signin-verify the code-match check runs before
the expiry check — a mismatched code is answered "Invalid OTP" whatever
the stored expiry — and the stored otp/otpExpires are cleared only when
both checks pass, so every rejection leaves the store unchanged. -/
theorem c4_match_checked_before_expiry (s : List Identity) (now : Nat)
    (email code : String) :
    (∀ u, findByEmail s email = some u → u.otp ≠ some code →
      (verifyOtp s now email code).1 = .badRequest "Invalid OTP" ∧
      (signinVerify s now email code).1 = .badRequest "Invalid OTP") ∧
    (isToken (verifyOtp s now email code).1 = false →
      (verifyOtp s now email code).2.1 = s) ∧
    (isToken (signinVerify s now email code).1 = false →
      (signinVerify s now email code).2.1 = s) := by
  refine ⟨?_, verifyOtp_fail_unchanged s now email code,
    signinVerify_fail_unchanged s now email code⟩
  intro u hfind hne
  have hc := mismatch_guard_true hne
  rw [verifyOtp_invalid now code hfind hc, signinVerify_invalid now code hfind hc]
  exact ⟨rfl, rfl⟩

/-- C4 witness: a wrong code on an already-expired challenge (stored expiry
1000, now 5000) is answered "Invalid OTP", not "OTP has expired". -/
theorem c4_witness :
    (verifyOtp [sampleWithOtp] 5000 "a@x.com" "999999").1 =
      .badRequest "Invalid OTP" ∧
    (signinVerify [sampleWithOtp] 5000 "a@x.com" "999999").1 =
      .badRequest "Invalid OTP" :=
  (c4_match_checked_before_expiry [sampleWithOtp] 5000 "a@x.com" "999999").1
    sampleWithOtp (by decide) (by decide)

end HdNote

namespace HdNote

/-- C2, counterexample: `sampleWithOtp` is unverified, yet signin-verify
with its outstanding code returns a session token bound to it — so
verify-otp is not the only operation that returns a token for an
unverified identity. -/
theorem c2_counterexample :
    sampleWithOtp.isEmailVerified = false ∧
    tokenId (signinVerify [sampleWithOtp] 500 "a@x.com" "123456").1 =
      some sampleWithOtp.id := by
  decide

/-- C2 (amended): signin — the OTP-issuing half of the signin flow —
rejects an unverified identity without touching the store, but
signin-verify checks only the stored challenge: it issues a token for an
unverified identity exactly when the supplied code matches the stored,
unexpired one. -/
theorem c2_unverified_token_paths (s : List Identity) (now : Nat)
    (otp email code : String) (u : Identity)
    (hfind : findByEmail s email = some u)
    (hv : u.isEmailVerified = false) :
    (signin s now otp email).1 =
      .badRequest "Please complete your signup first" ∧
    (signin s now otp email).2.1 = s ∧
    (isToken (signinVerify s now email code).1 = true ↔
      u.otp = some code ∧ code ≠ "" ∧
      ∃ t, u.otpExpires = some t ∧ now ≤ t) := by
  refine ⟨?_, ?_, ?_⟩
  · rw [signin_unverified now otp hfind hv]
  · rw [signin_unverified now otp hfind hv]
  · rw [signinVerify_token_iff]
    constructor
    · rintro ⟨u', hu', h1, h2, h3⟩
      rw [hfind] at hu'; injection hu' with hu'; subst hu'
      exact ⟨h1, h2, h3⟩
    · rintro ⟨h1, h2, h3⟩
      exact ⟨u, hfind, h1, h2, h3⟩

/-- C2 witness: concrete unverified identity — signin rejects it while
signin-verify's token condition reduces to its stored challenge. -/
theorem c2_witness :
    (signin [sampleWithOtp] 500 "000000" "a@x.com").1 =
      .badRequest "Please complete your signup first" ∧
    (signin [sampleWithOtp] 500 "000000" "a@x.com").2.1 = [sampleWithOtp] ∧
    (isToken (signinVerify [sampleWithOtp] 500 "a@x.com" "123456").1 = true ↔
      sampleWithOtp.otp = some "123456" ∧ "123456" ≠ "" ∧
      ∃ t, sampleWithOtp.otpExpires = some t ∧ 500 ≤ t) :=
  c2_unverified_token_paths [sampleWithOtp] 500 "000000" "a@x.com" "123456"
    sampleWithOtp (by decide) (by decide)

/-- C3: signin for an identity whose authProvider is the federated tag
("firebase") is rejected with a 400 result, no OTP notification is
dispatched, and the store is unchanged — whether or not the identity is
verified. -/
theorem c3_signin_federated_rejected (s : List Identity) (now : Nat)
    (otp email : String) (u : Identity)
    (hfind : findByEmail s email = some u)
    (hp : u.authProvider = "firebase") :
    isSuccess (signin s now otp email).1 = false ∧
    (signin s now otp email).2.1 = s ∧
    (signin s now otp email).2.2 = [] := by
  cases hv : u.isEmailVerified with
  | false => rw [signin_unverified now otp hfind hv]; exact ⟨rfl, rfl, rfl⟩
  | true => rw [signin_firebase now otp hfind hv hp]; exact ⟨rfl, rfl, rfl⟩

/-- C3 witness: concrete federated identity, signin rejected untouched. -/
theorem c3_witness :
    isSuccess (signin [sampleFederated] 0 "111111" "c@x.com").1 = false ∧
    (signin [sampleFederated] 0 "111111" "c@x.com").2.1 = [sampleFederated] ∧
    (signin [sampleFederated] 0 "111111" "c@x.com").2.2 = [] :=
  c3_signin_federated_rejected [sampleFederated] 0 "111111" "c@x.com"
    sampleFederated (by decide) (by decide)

end HdNote

namespace HdNote

theorem findByEmail_append_of_none {s : List Identity} {email : String}
    (h : findByEmail s email = none) (w : Identity)
    (hw : (w.email == email) = true) :
    findByEmail (s ++ [w]) email = some w := by
  unfold findByEmail at h ⊢
  rw [List.find?_append, h, Option.none_or]
  simp [List.find?, hw]

theorem findByEmail_beq {s : List Identity} {email : String} {u : Identity}
    (h : findByEmail s email = some u) : (u.email == email) = true := by
  unfold findByEmail at h
  have hx := List.find?_some h
  simpa using hx

theorem findByEmail_saveUser {s : List Identity} {email : String}
    {u : Identity} (u' : Identity) (h : findByEmail s email = some u)
    (hid : u'.id = u.id) (he : u'.email = u.email) :
    findByEmail (saveUser s u') email = some u' := by
  have hm := findByEmail_beq h
  unfold findByEmail at h ⊢
  exact find?_saveUser u' h hid (by simpa [he] using hm)

/-- C5: resend-otp for any existing identity — verified or not —
overwrites the stored challenge with the fresh code and a now + 10 min
expiry; afterwards verify-otp and signin-verify with the previously
issued (distinct) code are rejected "Invalid OTP". -/
theorem c5_resend_overwrites (s : List Identity) (now now2 : Nat)
    (email newOtp oldOtp : String) (u : Identity)
    (hfind : findByEmail s email = some u)
    (hfresh : newOtp ≠ oldOtp) :
    isSuccess (resendOtp s now newOtp email).1 = true ∧
    findByEmail (resendOtp s now newOtp email).2.1 email =
      some { u with
             otp := some newOtp,
             otpExpires := some (now + otpWindowMs) } ∧
    (verifyOtp (resendOtp s now newOtp email).2.1 now2 email oldOtp).1 =
      .badRequest "Invalid OTP" ∧
    (signinVerify (resendOtp s now newOtp email).2.1 now2 email oldOtp).1 =
      .badRequest "Invalid OTP" := by
  have hfind' : findByEmail
      (saveUser s { u with
                    otp := some newOtp,
                    otpExpires := some (now + otpWindowMs) }) email =
      some { u with
             otp := some newOtp,
             otpExpires := some (now + otpWindowMs) } :=
    findByEmail_saveUser _ hfind rfl rfl
  have hne : ({ u with
                otp := some newOtp,
                otpExpires := some (now + otpWindowMs) } : Identity).otp ≠
      some oldOtp := by
    simp [hfresh]
  have e : (resendOtp s now newOtp email).2.1 =
      saveUser s { u with
                   otp := some newOtp,
                   otpExpires := some (now + otpWindowMs) } := by
    rw [resendOtp_ok now newOtp hfind]
  refine ⟨?_, ?_, ?_, ?_⟩
  · rw [resendOtp_ok now newOtp hfind]; rfl
  · rw [e]; exact hfind'
  · rw [e, verifyOtp_invalid now2 oldOtp hfind' (mismatch_guard_true hne)]
  · rw [e, signinVerify_invalid now2 oldOtp hfind' (mismatch_guard_true hne)]

/-- C5 witness: concrete resend over the outstanding code "123456"; the
new code "222222" is stored and the old code is rejected afterwards. -/
theorem c5_witness :
    isSuccess (resendOtp [sampleWithOtp] 100 "222222" "a@x.com").1 = true ∧
    findByEmail (resendOtp [sampleWithOtp] 100 "222222" "a@x.com").2.1
        "a@x.com" =
      some { sampleWithOtp with
             otp := some "222222",
             otpExpires := some (100 + otpWindowMs) } ∧
    (verifyOtp (resendOtp [sampleWithOtp] 100 "222222" "a@x.com").2.1
        200 "a@x.com" "123456").1 = .badRequest "Invalid OTP" ∧
    (signinVerify (resendOtp [sampleWithOtp] 100 "222222" "a@x.com").2.1
        200 "a@x.com" "123456").1 = .badRequest "Invalid OTP" :=
  c5_resend_overwrites [sampleWithOtp] 100 200 "a@x.com" "222222" "123456"
    sampleWithOtp (by decide) (by decide)

/-- C6: signup is rejected 400 "already exists" exactly when a verified
identity with that email exists (and then nothing changes); otherwise it
updates the existing unverified identity or creates a new one, and the
identity found under that email afterwards carries the submitted name and
date of birth, the fresh OTP with expiry now + 10 min, is unverified, and
an OTP notification was dispatched. -/
theorem c6_signup_semantics (s : List Identity) (now : Nat)
    (otp name email : String) (dob : Nat) :
    ((signup s now otp name email dob).1 =
        .badRequest "User already exists with this email" ↔
      ∃ u, findByEmail s email = some u ∧ u.isEmailVerified = true) ∧
    ((signup s now otp name email dob).1 =
        .badRequest "User already exists with this email" →
      (signup s now otp name email dob).2.1 = s) ∧
    ((signup s now otp name email dob).1 ≠
        .badRequest "User already exists with this email" →
      ∃ u', findByEmail (signup s now otp name email dob).2.1 email =
          some u' ∧
        u'.name = name ∧ u'.dateOfBirth = some dob ∧
        u'.otp = some otp ∧ u'.otpExpires = some (now + otpWindowMs) ∧
        u'.isEmailVerified = false ∧
        (signup s now otp name email dob).2.2 =
          [.otpMail email otp name]) := by
  rcases hfind : findByEmail s email with _ | u
  · have e := signup_create now otp name dob hfind
    have happ := findByEmail_append_of_none hfind
      { id := freshId s, name := name, email := email,
        dateOfBirth := some dob, avatar := none,
        authProvider := "email", firebaseUid := none,
        isEmailVerified := false, otp := some otp,
        otpExpires := some (now + otpWindowMs) } (by simp)
    refine ⟨?_, ?_, ?_⟩
    · rw [e]; simp
    · rw [e]; intro h; simp at h
    · intro hne
      rw [e]
      exact ⟨_, happ, rfl, rfl, rfl, rfl, rfl, rfl⟩
  · cases hv : u.isEmailVerified with
    | true =>
      have e := signup_exists now otp name dob hfind hv
      refine ⟨?_, ?_, ?_⟩
      · rw [e]; simp only [true_iff]; exact ⟨u, rfl, hv⟩
      · rw [e]; intro h; rfl
      · rw [e]; intro hne; exact absurd rfl hne
    | false =>
      have e := signup_update now otp name dob hfind hv
      have hfind' := findByEmail_saveUser
        { u with
          name := name, dateOfBirth := some dob,
          otp := some otp, otpExpires := some (now + otpWindowMs) }
        hfind rfl rfl
      refine ⟨?_, ?_, ?_⟩
      · rw [e]
        constructor
        · intro h; cases h
        · rintro ⟨u', hu', hv'⟩
          injection hu' with hu'; subst hu'
          rw [hv] at hv'; cases hv'
      · rw [e]; intro h; cases h
      · intro hne
        rw [e]
        exact ⟨_, hfind', rfl, rfl, rfl, rfl, hv, rfl⟩

/-- C6 witness: signup into an empty store creates the pending identity. -/
theorem c6_witness :
    ∃ u', findByEmail (signup [] 0 "123456" "A" "a@x.com" 5).2.1 "a@x.com" =
        some u' ∧
      u'.name = "A" ∧ u'.dateOfBirth = some 5 ∧ u'.otp = some "123456" ∧
      u'.otpExpires = some (0 + otpWindowMs) ∧ u'.isEmailVerified = false ∧
      (signup [] 0 "123456" "A" "a@x.com" 5).2.2 =
        [.otpMail "a@x.com" "123456" "A"] :=
  (c6_signup_semantics [] 0 "123456" "A" "a@x.com" 5).2.2 (by decide)

end HdNote

namespace HdNote

/-- C7, counterexample: two federated-login calls with the same provider id
"U1" but different email payloads return different identity ids — the
first creates a fresh record, the second attaches "U1" to the pre-existing
email identity `sampleVerified` — and afterwards two stored records carry
firebaseUid "U1". -/
theorem c7_counterexample :
    tokenId (googleFirebase [sampleVerified] (some "U1") none
        (some "a@x.com") none).1 ≠
      tokenId (googleFirebase
        (googleFirebase [sampleVerified] (some "U1") none
          (some "a@x.com") none).2.1
        (some "U1") none (some "b@x.com") none).1 ∧
    ((googleFirebase
        (googleFirebase [sampleVerified] (some "U1") none
          (some "a@x.com") none).2.1
        (some "U1") none (some "b@x.com") none).2.1.filter
      (fun u => u.firebaseUid == some "U1")).length = 2 := by
  decide

/-- C7 (amended): federated-login is idempotent on the (providerId, email)
payload: calling it twice with the same provider id and the same email
returns the same identity id both times, and the second call adds no
record. -/
theorem c7_federated_login_idempotent (s : List Identity)
    (uid email : String) (name1 avatar1 name2 avatar2 : Option String)
    (huid : uid ≠ "") (hemail : email ≠ "") :
    tokenId (googleFirebase
        (googleFirebase s (some uid) name1 (some email) avatar1).2.1
        (some uid) name2 (some email) avatar2).1 =
      tokenId (googleFirebase s (some uid) name1 (some email) avatar1).1 ∧
    (googleFirebase
        (googleFirebase s (some uid) name1 (some email) avatar1).2.1
        (some uid) name2 (some email) avatar2).2.1.length =
      (googleFirebase s (some uid) name1 (some email) avatar1).2.1.length := by
  have hg : (!truthyStr (some uid) || !truthyStr (some email)) = false := by
    simp [truthyStr, huid, hemail]
  rcases hf : s.find? (fun v =>
      v.firebaseUid == some uid || v.email == email) with _ | u
  · have e1 := @googleFirebase_create s (some uid) name1 (some email)
      avatar1 hg hf
    have e1s : (googleFirebase s (some uid) name1 (some email) avatar1).2.1 =
        s ++ [googleCreated s (some uid) name1 (some email) avatar1] := by
      rw [e1]
    have e1t : tokenId
        (googleFirebase s (some uid) name1 (some email) avatar1).1 =
        some (freshId s) := by
      rw [e1]; rfl
    have happ : (s ++ [googleCreated s (some uid) name1 (some email)
          avatar1]).find? (fun v =>
        v.firebaseUid == some uid || v.email == email) =
        some (googleCreated s (some uid) name1 (some email) avatar1) := by
      rw [List.find?_append, hf, Option.none_or]
      simp [List.find?, googleCreated]
    have hn2 : truthyStr (googleCreated s (some uid) name1 (some email)
        avatar1).firebaseUid = true := by
      simp [truthyStr, googleCreated, huid]
    have e2 := @googleFirebase_existing _ (some uid) name2 (some email)
      avatar2 _ hg happ hn2
    constructor
    · rw [e1s, e2, e1t]; rfl
    · rw [e1s, e2]
  · cases hn : truthyStr u.firebaseUid with
    | false =>
      have e1 := @googleFirebase_attach s (some uid) name1 (some email)
        avatar1 u hg hf hn
      have e1s : (googleFirebase s (some uid) name1 (some email)
          avatar1).2.1 = saveUser s (googleAttached u (some uid) avatar1) := by
        rw [e1]
      have e1t : tokenId
          (googleFirebase s (some uid) name1 (some email) avatar1).1 =
          some u.id := by
        rw [e1]; rfl
      have hf2 : (saveUser s (googleAttached u (some uid) avatar1)).find?
          (fun v => v.firebaseUid == some uid || v.email == email) =
          some (googleAttached u (some uid) avatar1) :=
        find?_saveUser _ hf rfl (by simp [googleAttached])
      have hn2 : truthyStr (googleAttached u (some uid)
          avatar1).firebaseUid = true := by
        simp [truthyStr, googleAttached, huid]
      have e2 := @googleFirebase_existing _ (some uid) name2 (some email)
        avatar2 _ hg hf2 hn2
      constructor
      · rw [e1s, e2, e1t]; rfl
      · rw [e1s, e2]
    | true =>
      have e1 := @googleFirebase_existing s (some uid) name1 (some email)
        avatar1 u hg hf hn
      have e1s : (googleFirebase s (some uid) name1 (some email)
          avatar1).2.1 = s := by
        rw [e1]
      have e1t : tokenId
          (googleFirebase s (some uid) name1 (some email) avatar1).1 =
          some u.id := by
        rw [e1]; rfl
      have e2 := @googleFirebase_existing s (some uid) name2 (some email)
        avatar2 u hg hf hn
      constructor
      · rw [e1s, e2, e1t]; rfl
      · rw [e1s, e2]

/-- C7 witness: two identical federated-login calls on an empty store. -/
theorem c7_witness :
    tokenId (googleFirebase
        (googleFirebase [] (some "U1") none (some "a@x.com") none).2.1
        (some "U1") none (some "a@x.com") none).1 =
      tokenId (googleFirebase [] (some "U1") none (some "a@x.com") none).1 ∧
    (googleFirebase
        (googleFirebase [] (some "U1") none (some "a@x.com") none).2.1
        (some "U1") none (some "a@x.com") none).2.1.length =
      (googleFirebase [] (some "U1") none (some "a@x.com") none).2.1.length :=
  c7_federated_login_idempotent [] "U1" "a@x.com" none none none none
    (by decide) (by decide)

end HdNote

namespace HdNote

theorem googleFirebase_missing {s : List Identity}
    {uid name email avatar : Option String}
    (hg : (!truthyStr uid || !truthyStr email) = true) :
    googleFirebase s uid name email avatar =
      (.badRequest "Firebase UID and email are required", s, []) := by
  simp [googleFirebase, hg]

theorem storePaired_saveUser {s : List Identity} {u : Identity}
    (hs : storePaired s) (hu : otpPaired u = true) :
    storePaired (saveUser s u) := by
  intro v hv
  rcases mem_saveUser hv with rfl | hv'
  · exact hu
  · exact hs v hv'

theorem storePaired_append {s : List Identity} {u : Identity}
    (hs : storePaired s) (hu : otpPaired u = true) :
    storePaired (s ++ [u]) := by
  intro v hv
  rcases List.mem_append.1 hv with hv' | hv'
  · exact hs v hv'
  · rw [List.mem_singleton.1 hv']
    exact hu

/-- C8: each of the six operations preserves the invariant that for every
stored identity otp and otpExpires are both present or both absent. -/
theorem c8_otp_pairing_invariant (s : List Identity) (now : Nat)
    (otp name email code : String) (dob : Nat)
    (uid nm em av : Option String)
    (hs : storePaired s) :
    storePaired (signup s now otp name email dob).2.1 ∧
    storePaired (verifyOtp s now email code).2.1 ∧
    storePaired (signin s now otp email).2.1 ∧
    storePaired (signinVerify s now email code).2.1 ∧
    storePaired (resendOtp s now otp email).2.1 ∧
    storePaired (googleFirebase s uid nm em av).2.1 := by
  refine ⟨?_, ?_, ?_, ?_, ?_, ?_⟩
  · rcases hfind : findByEmail s email with _ | u
    · rw [signup_create now otp name dob hfind]
      exact storePaired_append hs (by simp [otpPaired])
    · cases hv : u.isEmailVerified with
      | true =>
        rw [signup_exists now otp name dob hfind hv]
        exact hs
      | false =>
        rw [signup_update now otp name dob hfind hv]
        exact storePaired_saveUser hs (by simp [otpPaired])
  · rcases hfind : findByEmail s email with _ | u
    · rw [verifyOtp_not_found now code hfind]; exact hs
    · cases hc : (!truthyStr u.otp || u.otp != some code) with
      | true => rw [verifyOtp_invalid now code hfind hc]; exact hs
      | false =>
        cases he : dateExpired u.otpExpires now with
        | true => rw [verifyOtp_expired now code hfind hc he]; exact hs
        | false =>
          rw [verifyOtp_ok now code hfind hc he]
          exact storePaired_saveUser hs (by simp [otpPaired])
  · rcases hfind : findByEmail s email with _ | u
    · rw [signin_not_found now otp hfind]; exact hs
    · cases hv : u.isEmailVerified with
      | false => rw [signin_unverified now otp hfind hv]; exact hs
      | true =>
        by_cases hp : u.authProvider = "firebase"
        · rw [signin_firebase now otp hfind hv hp]; exact hs
        · rw [signin_ok now otp hfind hv hp]
          exact storePaired_saveUser hs (by simp [otpPaired])
  · rcases hfind : findByEmail s email with _ | u
    · rw [signinVerify_not_found now code hfind]; exact hs
    · cases hc : (!truthyStr u.otp || u.otp != some code) with
      | true => rw [signinVerify_invalid now code hfind hc]; exact hs
      | false =>
        cases he : dateExpired u.otpExpires now with
        | true => rw [signinVerify_expired now code hfind hc he]; exact hs
        | false =>
          rw [signinVerify_ok now code hfind hc he]
          exact storePaired_saveUser hs (by simp [otpPaired])
  · rcases hfind : findByEmail s email with _ | u
    · rw [resendOtp_not_found now otp hfind]; exact hs
    · rw [resendOtp_ok now otp hfind]
      exact storePaired_saveUser hs (by simp [otpPaired])
  · cases hg : (!truthyStr uid || !truthyStr em) with
    | true => rw [googleFirebase_missing hg]; exact hs
    | false =>
      rcases hf : s.find? (fun v => v.firebaseUid == some (uid.getD "") ||
          v.email == em.getD "") with _ | u
      · rw [googleFirebase_create hg hf]
        exact storePaired_append hs (by simp [otpPaired, googleCreated])
      · cases hn : truthyStr u.firebaseUid with
        | false =>
          rw [googleFirebase_attach hg hf hn]
          refine storePaired_saveUser hs ?_
          have hu := hs u (List.mem_of_find?_eq_some hf)
          simpa [otpPaired, googleAttached] using hu
        | true => rw [googleFirebase_existing hg hf hn]; exact hs

/-- C8 witness: the invariant holds after each operation run on a concrete
store that satisfies it. -/
theorem c8_witness :
    storePaired (signup [sampleWithOtp] 0 "111111" "N" "n@x.com" 1).2.1 ∧
    storePaired (verifyOtp [sampleWithOtp] 0 "n@x.com" "123456").2.1 ∧
    storePaired (signin [sampleWithOtp] 0 "111111" "n@x.com").2.1 ∧
    storePaired (signinVerify [sampleWithOtp] 0 "n@x.com" "123456").2.1 ∧
    storePaired (resendOtp [sampleWithOtp] 0 "111111" "n@x.com").2.1 ∧
    storePaired (googleFirebase [sampleWithOtp] (some "U2") none
      (some "n@x.com") none).2.1 :=
  c8_otp_pairing_invariant [sampleWithOtp] 0 "111111" "N" "n@x.com" "123456"
    1 (some "U2") none (some "n@x.com") none (by decide)

end HdNote

namespace HdNote

theorem mem_of_findByEmail {s : List Identity} {email : String}
    {u : Identity} (h : findByEmail s email = some u) : u ∈ s := by
  unfold findByEmail at h
  exact List.mem_of_find?_eq_some h

theorem self_mem_saveUser {s : List Identity} {u u' : Identity}
    (h : u ∈ s) (hid : u'.id = u.id) : u' ∈ saveUser s u' := by
  refine List.mem_map.2 ⟨u, h, ?_⟩
  simp [hid]

/-- C9: a success response of verify-otp, signin-verify or federated-login
always carries the token and public projection of an identity stored in
the resulting store: the user object is exactly `publicProfile` — the six
fields id, name, email, dateOfBirth, avatar, authProvider, with no otp,
otpExpires or firebaseUid — and the token encodes that identity's id. -/
theorem c9_public_projection (s : List Identity) (now : Nat)
    (email code : String) (uid nm em av : Option String) :
    (∀ msg t p, (verifyOtp s now email code).1 = .okToken msg t p →
      ∃ u, u ∈ (verifyOtp s now email code).2.1 ∧
        p = publicProfile u ∧ t = u.id) ∧
    (∀ msg t p, (signinVerify s now email code).1 = .okToken msg t p →
      ∃ u, u ∈ (signinVerify s now email code).2.1 ∧
        p = publicProfile u ∧ t = u.id) ∧
    (∀ msg t p, (googleFirebase s uid nm em av).1 = .okToken msg t p →
      ∃ u, u ∈ (googleFirebase s uid nm em av).2.1 ∧
        p = publicProfile u ∧ t = u.id) := by
  refine ⟨?_, ?_, ?_⟩
  · intro msg t p heq
    rcases hfind : findByEmail s email with _ | u
    · rw [verifyOtp_not_found now code hfind] at heq
      simp at heq
    · cases hc : (!truthyStr u.otp || u.otp != some code) with
      | true =>
        rw [verifyOtp_invalid now code hfind hc] at heq
        simp at heq
      | false =>
        cases he : dateExpired u.otpExpires now with
        | true =>
          rw [verifyOtp_expired now code hfind hc he] at heq
          simp at heq
        | false =>
          rw [verifyOtp_ok now code hfind hc he] at heq ⊢
          injection heq with h1 h2 h3
          exact ⟨{ u with
                   isEmailVerified := true, otp := none, otpExpires := none },
            self_mem_saveUser (mem_of_findByEmail hfind) rfl,
            h3.symm, h2.symm⟩
  · intro msg t p heq
    rcases hfind : findByEmail s email with _ | u
    · rw [signinVerify_not_found now code hfind] at heq
      simp at heq
    · cases hc : (!truthyStr u.otp || u.otp != some code) with
      | true =>
        rw [signinVerify_invalid now code hfind hc] at heq
        simp at heq
      | false =>
        cases he : dateExpired u.otpExpires now with
        | true =>
          rw [signinVerify_expired now code hfind hc he] at heq
          simp at heq
        | false =>
          rw [signinVerify_ok now code hfind hc he] at heq ⊢
          injection heq with h1 h2 h3
          exact ⟨{ u with otp := none, otpExpires := none },
            self_mem_saveUser (mem_of_findByEmail hfind) rfl,
            h3.symm, h2.symm⟩
  · intro msg t p heq
    cases hg : (!truthyStr uid || !truthyStr em) with
    | true =>
      rw [googleFirebase_missing hg] at heq
      simp at heq
    | false =>
      rcases hf : s.find? (fun v => v.firebaseUid == some (uid.getD "") ||
          v.email == em.getD "") with _ | u
      · rw [googleFirebase_create hg hf] at heq ⊢
        injection heq with h1 h2 h3
        refine ⟨googleCreated s uid nm em av, ?_, h3.symm, h2.symm⟩
        exact List.mem_append.2 (Or.inr (List.mem_singleton.2 rfl))
      · cases hn : truthyStr u.firebaseUid with
        | false =>
          rw [googleFirebase_attach hg hf hn] at heq ⊢
          injection heq with h1 h2 h3
          exact ⟨googleAttached u uid av,
            self_mem_saveUser (List.mem_of_find?_eq_some hf) rfl,
            h3.symm, h2.symm⟩
        | true =>
          rw [googleFirebase_existing hg hf hn] at heq ⊢
          injection heq with h1 h2 h3
          exact ⟨u, List.mem_of_find?_eq_some hf, h3.symm, h2.symm⟩

/-- C9 witness: the concrete verify-otp success response is the projection
of the verified identity and its token id. -/
theorem c9_witness :
    ∃ u, u ∈ (verifyOtp [sampleWithOtp] 500 "a@x.com" "123456").2.1 ∧
      ({ id := 1, name := "A", email := "a@x.com", dateOfBirth := some 0,
         avatar := none, authProvider := "email" } : PublicProfile) =
        publicProfile u ∧ 1 = u.id :=
  (c9_public_projection [sampleWithOtp] 500 "a@x.com" "123456"
    none none none none).1 "Email verified successfully" 1
    { id := 1, name := "A", email := "a@x.com", dateOfBirth := some 0,
      avatar := none, authProvider := "email" } (by decide)

/-- C10: when federated-login finds an existing identity with no stored
firebaseUid, it attaches the provider id, fills a missing avatar, and
switches authProvider to "firebase"; afterwards the email/OTP signin path
rejects that identity with a 400 and changes nothing. -/
theorem c10_attach_switches_provider (s : List Identity)
    (uid email : String) (name avatar : Option String) (u : Identity)
    (huid : uid ≠ "") (hemail : email ≠ "")
    (hf : s.find? (fun v => v.firebaseUid == some uid ||
        v.email == email) = some u)
    (hn : truthyStr u.firebaseUid = false)
    (hemailfind : findByEmail s u.email = some u) :
    (googleFirebase s (some uid) name (some email) avatar).2.1 =
      saveUser s (googleAttached u (some uid) avatar) ∧
    (googleAttached u (some uid) avatar).authProvider = "firebase" ∧
    (googleAttached u (some uid) avatar).firebaseUid = some uid ∧
    (googleAttached u (some uid) avatar).avatar =
      (if truthyStr avatar && !truthyStr u.avatar then avatar
       else u.avatar) ∧
    ∀ now otp2,
      isSuccess (signin
        (googleFirebase s (some uid) name (some email) avatar).2.1
        now otp2 u.email).1 = false ∧
      (signin (googleFirebase s (some uid) name (some email) avatar).2.1
        now otp2 u.email).2.1 =
        (googleFirebase s (some uid) name (some email) avatar).2.1 := by
  have hg : (!truthyStr (some uid) || !truthyStr (some email)) = false := by
    simp [truthyStr, huid, hemail]
  have e1 := @googleFirebase_attach s (some uid) name (some email) avatar
    u hg hf hn
  have e1s : (googleFirebase s (some uid) name (some email) avatar).2.1 =
      saveUser s (googleAttached u (some uid) avatar) := by
    rw [e1]
  have hfind' : findByEmail (saveUser s (googleAttached u (some uid)
      avatar)) u.email = some (googleAttached u (some uid) avatar) :=
    findByEmail_saveUser _ hemailfind rfl rfl
  refine ⟨e1s, rfl, rfl, rfl, ?_⟩
  intro now otp2
  cases hv : (googleAttached u (some uid) avatar).isEmailVerified with
  | false =>
    rw [e1s, signin_unverified now otp2 hfind' hv]
    exact ⟨rfl, rfl⟩
  | true =>
    rw [e1s, signin_firebase now otp2 hfind' hv rfl]
    exact ⟨rfl, rfl⟩

/-- C10 witness: attaching "U1" to the verified email identity, signin is
afterwards rejected and the store is untouched. -/
theorem c10_witness :
    isSuccess (signin (googleFirebase [sampleVerified] (some "U1") none
        (some "b@x.com") (some "pic")).2.1 5 "333333" "b@x.com").1 =
      false ∧
    (signin (googleFirebase [sampleVerified] (some "U1") none
        (some "b@x.com") (some "pic")).2.1 5 "333333" "b@x.com").2.1 =
      (googleFirebase [sampleVerified] (some "U1") none
        (some "b@x.com") (some "pic")).2.1 :=
  (c10_attach_switches_provider [sampleVerified] "U1" "b@x.com" none
    (some "pic") sampleVerified (by decide) (by decide) (by decide)
    (by decide) (by decide)).2.2.2.2 5 "333333"

end HdNote
